import Mathlib

/-!
Shallow embedding of the ACCOUNTING subsystem of the backendtest repository:
the chart-of-accounts registry (seedChartOfAccounts in the ACCOUNTING database
initialisation module), the journal-entry repository
(src/ACCOUNTING/accounting.routes.js: createJournalEntry, getJournalEntries,
getJournalEntryLines, getAccountBalances, getAccountingOverview).

Modelling conventions:
* SQL tables become Lean lists of records; SERIAL ids are carried explicitly
  (`nextEntryId`, `nextLineId`).
* Monetary amounts (JS numbers / SQL DECIMAL) are rationals; the JS idiom
  `Number(x) || 0` on a possibly-absent field becomes `numOr0 : Option Rat -> Rat`.
* JS string truthiness (`!entryDate`) becomes `present : Option String -> Bool`
  (absent or empty string is falsy); `x || null` becomes `orNull`.
* The postgres transaction in createJournalEntry (BEGIN / insert header /
  insert lines / COMMIT, with ROLLBACK on error) is embedded by state passing:
  a line-insert failure returns the pre-transaction state.  The only modelled
  insert failure is the foreign-key constraint fk_jel_account (a line
  referencing a non-existent account), matching the failure mode the spec
  discusses.  The post-COMMIT read-back sits inside the same catch block as
  the transaction, so a read-back failure surfaces as an error even though the
  commit stands; this is modelled by the `readBackOk` oracle.
* SQL ORDER BY becomes `List.insertionSort` with the corresponding relation.
-/

namespace Backendtest

/- Batteries marks the Rat operations irreducible; restore default
transparency locally so that concrete witnesses evaluate by `decide`. -/
attribute [local semireducible] Rat.add Rat.sub Rat.mul Rat.inv

inductive Category where
  | assets
  | liabilities
  | equity
  | revenue
  | expenses
deriving DecidableEq, Repr

/-- Row of the chart_of_accounts table. -/
structure Account where
  id : Nat
  accountNumber : String
  accountName : String
  category : Category
  subcategory : Option String
  description : Option String
  isActive : Bool
  createdAt : Nat
  updatedAt : Nat
deriving DecidableEq, Repr

/-- Row of the journal_entries table.  The DATE column is kept as a string
(ISO dates compare lexicographically, matching SQL date order). -/
structure JournalEntry where
  id : Nat
  entryDate : String
  description : String
  referenceNumber : Option String
  createdBy : Option String
  createdAt : Nat
  updatedAt : Nat
deriving DecidableEq, Repr

/-- Row of the journal_entry_lines table. -/
structure JournalEntryLine where
  id : Nat
  journalEntryId : Nat
  accountId : Nat
  debit : Rat
  credit : Rat
  description : Option String
  createdAt : Nat
  updatedAt : Nat
deriving DecidableEq, Repr

/-- The accounting database: the three tables plus the SERIAL id counters. -/
structure LedgerDB where
  accounts : List Account
  entries : List JournalEntry
  lines : List JournalEntryLine
  nextEntryId : Nat
  nextLineId : Nat
deriving DecidableEq, Repr

/-- The fixed seed list of seedChartOfAccounts
(number, name, category, subcategory). -/
def standardChart : List (String × String × Category × String) := [
  ("1010", "Cash - Checking", Category.assets, "Current Assets"),
  ("1020", "Cash - Savings", Category.assets, "Current Assets"),
  ("1030", "Petty Cash", Category.assets, "Current Assets"),
  ("1100", "Accounts Receivable", Category.assets, "Current Assets"),
  ("1200", "Inventory", Category.assets, "Current Assets"),
  ("1300", "Prepaid Insurance", Category.assets, "Current Assets"),
  ("1310", "Prepaid Rent", Category.assets, "Current Assets"),
  ("1500", "Furniture & Equipment", Category.assets, "Fixed Assets"),
  ("1510", "Vehicles", Category.assets, "Fixed Assets"),
  ("1520", "Machinery", Category.assets, "Fixed Assets"),
  ("1530", "Leasehold Improvements", Category.assets, "Fixed Assets"),
  ("1600", "Accumulated Depreciation", Category.assets, "Fixed Assets"),
  ("2010", "Accounts Payable", Category.liabilities, "Current Liabilities"),
  ("2020", "Credit Card Payable", Category.liabilities, "Current Liabilities"),
  ("2100", "Accrued Payroll", Category.liabilities, "Current Liabilities"),
  ("2110", "Accrued Interest", Category.liabilities, "Current Liabilities"),
  ("2120", "Accrued Utilities", Category.liabilities, "Current Liabilities"),
  ("2200", "Sales Tax Payable", Category.liabilities, "Current Liabilities"),
  ("2210", "Payroll Tax Payable", Category.liabilities, "Current Liabilities"),
  ("2300", "Short-Term Loans Payable", Category.liabilities, "Current Liabilities"),
  ("2310", "Line of Credit", Category.liabilities, "Current Liabilities"),
  ("2500", "Long-Term Loans Payable", Category.liabilities, "Long-Term Liabilities"),
  ("2510", "Mortgage Payable", Category.liabilities, "Long-Term Liabilities"),
  ("3010", "Owner\x27s Capital", Category.equity, "Owner\x27s Equity"),
  ("3020", "Common Stock", Category.equity, "Shareholder\x27s Equity"),
  ("3030", "Additional Paid-In Capital", Category.equity, "Shareholder\x27s Equity"),
  ("3100", "Retained Earnings", Category.equity, "Retained Earnings"),
  ("3200", "Owner\x27s Drawings", Category.equity, "Distributions"),
  ("3210", "Dividends", Category.equity, "Distributions"),
  ("4010", "Product Sales Revenue", Category.revenue, "Operating Revenue"),
  ("4020", "Service Revenue", Category.revenue, "Operating Revenue"),
  ("4100", "Other Operating Revenue", Category.revenue, "Operating Revenue"),
  ("4900", "Interest Income", Category.revenue, "Non-Operating Revenue"),
  ("4910", "Other Income", Category.revenue, "Non-Operating Revenue"),
  ("5010", "Cost of Materials", Category.expenses, "Cost of Goods Sold"),
  ("5020", "Direct Labor", Category.expenses, "Cost of Goods Sold"),
  ("5030", "Subcontract Manufacturing", Category.expenses, "Cost of Goods Sold"),
  ("5040", "Freight-In", Category.expenses, "Cost of Goods Sold"),
  ("6010", "Salaries and Wages", Category.expenses, "Operating Expenses"),
  ("6020", "Payroll Taxes", Category.expenses, "Operating Expenses"),
  ("6030", "Employee Benefits", Category.expenses, "Operating Expenses"),
  ("6100", "Rent Expense", Category.expenses, "Operating Expenses"),
  ("6110", "Utilities - Electric", Category.expenses, "Operating Expenses"),
  ("6120", "Utilities - Water & Gas", Category.expenses, "Operating Expenses"),
  ("6130", "Internet & Phone", Category.expenses, "Operating Expenses"),
  ("6200", "Office Supplies", Category.expenses, "Operating Expenses"),
  ("6300", "Marketing & Advertising", Category.expenses, "Operating Expenses"),
  ("6400", "Travel Expense", Category.expenses, "Operating Expenses"),
  ("6410", "Meals & Entertainment", Category.expenses, "Operating Expenses"),
  ("6500", "Insurance Expense", Category.expenses, "Operating Expenses"),
  ("6600", "Legal Fees", Category.expenses, "Operating Expenses"),
  ("6610", "Accounting Fees", Category.expenses, "Operating Expenses"),
  ("6620", "Consulting Fees", Category.expenses, "Operating Expenses"),
  ("6700", "Software & Subscriptions", Category.expenses, "Operating Expenses"),
  ("6800", "Repairs & Maintenance", Category.expenses, "Operating Expenses"),
  ("6900", "Bank Fees", Category.expenses, "Operating Expenses"),
  ("6910", "Merchant Fees", Category.expenses, "Operating Expenses"),
  ("6950", "Depreciation Expense", Category.expenses, "Operating Expenses"),
  ("6990", "Income Tax Expense", Category.expenses, "Operating Expenses")]

/-- Build Account rows for the seed list: SERIAL ids counted up from `i`,
isActive true, createdAt = updatedAt = now (the single `const now = new Date()`
of seedChartOfAccounts). -/
def assignIds (now : Nat) : Nat → List (String × String × Category × String) → List Account
  | _, [] => []
  | i, (num, name, cat, sub) :: rest =>
    { id := i, accountNumber := num, accountName := name, category := cat,
      subcategory := some sub, description := none, isActive := true,
      createdAt := now, updatedAt := now } :: assignIds now (i + 1) rest

/-- seedChartOfAccounts (ACCOUNTING database initialisation module): if
SELECT COUNT(*) FROM chart_of_accounts is > 0, skip; otherwise insert every
account of the fixed list. -/
def seedChartOfAccounts (now : Nat) (accounts : List Account) : List Account :=
  if accounts.length > 0 then accounts
  else accounts ++ assignIds now 1 standardChart

/-- Payload line of POST /journal-entries: `{accountId, debit, credit, description?}`.
`none` models an absent (or non-numeric, hence NaN) field. -/
structure LinePayload where
  accountId : Nat
  debit : Option Rat
  credit : Option Rat
  description : Option String
deriving DecidableEq, Repr

/-- Payload of POST /journal-entries.  `lines = none` models a payload whose
`lines` is absent or not an array. -/
structure EntryPayload where
  entryDate : Option String
  description : Option String
  referenceNumber : Option String
  createdBy : Option String
  lines : Option (List LinePayload)
deriving DecidableEq, Repr

/-- The JS idiom `Number(x) || 0`: an absent field (or NaN) collapses to 0,
any other numeric value passes through unchanged. -/
def numOr0 : Option Rat → Rat
  | none => 0
  | some q => q

/-- JS string truthiness, as used by `if (!entryDate)` / `if (!description)`:
absent and empty string are falsy. -/
def present : Option String → Bool
  | none => false
  | some s => !(s == "")

/-- The JS idiom `x || null` on an optional string: empty string collapses
to null. -/
def orNull : Option String → Option String
  | some "" => none
  | o => o

/-- The total `lines.reduce((sum, line) => sum + (Number(line.debit) || 0), 0)`. -/
def totalDebits (ls : List LinePayload) : Rat :=
  ls.foldl (fun sum line => sum + numOr0 line.debit) 0

/-- The total `lines.reduce((sum, line) => sum + (Number(line.credit) || 0), 0)`. -/
def totalCredits (ls : List LinePayload) : Rat :=
  ls.foldl (fun sum line => sum + numOr0 line.credit) 0

/-- The validation messages pushed onto `issues` by createJournalEntry; the
`unbalanced` constructor carries the two totals interpolated into the message
`journal entry must be balanced (debits: X, credits: Y)`. -/
inductive Issue where
  | entryDateRequired
  | descriptionRequired
  | linesRequired
  | unbalanced (debits credits : Rat)
deriving DecidableEq, Repr

/-- The `issues` list built by createJournalEntry before any persistence:
missing entryDate, missing description, missing/empty lines array, and (when
lines is a non-empty array) an imbalance beyond the 0.01 tolerance. -/
def validationIssues (p : EntryPayload) : List Issue :=
  (if !present p.entryDate then [Issue.entryDateRequired] else []) ++
  (if !present p.description then [Issue.descriptionRequired] else []) ++
  (if p.lines.getD [] = [] then [Issue.linesRequired] else []) ++
  (match p.lines with
   | some ls =>
     if ls ≠ [] ∧ |totalDebits ls - totalCredits ls| > 1 / 100 then
       [Issue.unbalanced (totalDebits ls) (totalCredits ls)]
     else []
   | none => [])

/-- Errors surfaced by createJournalEntry: the ValidationError built from the
issues list, a line insert rejected by the fk_jel_account foreign key (the
referenced account does not exist), or a failure of the post-COMMIT
read-back. -/
inductive AcctError where
  | validation (issues : List Issue)
  | fkViolation (accountId : Nat)
  | readBackFailed
deriving DecidableEq, Repr

/-- One INSERT INTO journal_entry_lines inside the transaction.  Fails iff the
fk_jel_account constraint rejects it (no chart_of_accounts row has this id);
otherwise appends the row, with `Number(line.debit) || 0` /
`Number(line.credit) || 0` amounts and `line.description || null`. -/
def insertLine (db : LedgerDB) (entryId now : Nat) (l : LinePayload) :
    Except AcctError LedgerDB :=
  if db.accounts.any (fun a => a.id == l.accountId) then
    Except.ok { db with
      lines := db.lines ++ [{
        id := db.nextLineId, journalEntryId := entryId, accountId := l.accountId,
        debit := numOr0 l.debit, credit := numOr0 l.credit,
        description := orNull l.description, createdAt := now, updatedAt := now }],
      nextLineId := db.nextLineId + 1 }
  else Except.error (AcctError.fkViolation l.accountId)

/-- The `for (const line of lines)` insert loop: stops at the first failing
line. -/
def insertLines (db : LedgerDB) (entryId now : Nat) :
    List LinePayload → Except AcctError LedgerDB
  | [] => Except.ok db
  | l :: rest =>
    match insertLine db entryId now l with
    | Except.ok db2 => insertLines db2 entryId now rest
    | Except.error e => Except.error e

/-- A journal entry line as returned by the read-back / listLines queries,
enriched with the account number and name via the JOIN on chart_of_accounts. -/
structure EnrichedLine where
  line : JournalEntryLine
  accountNumber : String
  accountName : String
deriving DecidableEq, Repr

/-- Result shape of createJournalEntry: `{ ...entry.rows[0], lines }`. -/
structure CreatedEntry where
  entry : JournalEntry
  lines : List EnrichedLine
deriving DecidableEq, Repr

/-- The post-COMMIT read-back of the lines:
SELECT jel.*, coa."accountNumber", coa."accountName" FROM journal_entry_lines
JOIN chart_of_accounts WHERE "journalEntryId" = $1 (no ORDER BY). -/
def readBackLines (db : LedgerDB) (entryId : Nat) : List EnrichedLine :=
  (db.lines.filter (fun l => l.journalEntryId == entryId)).filterMap fun l =>
    (db.accounts.find? (fun a => a.id == l.accountId)).map fun a =>
      { line := l, accountNumber := a.accountNumber, accountName := a.accountName }

/-- createJournalEntry (src/ACCOUNTING/accounting.routes.js, repository part).
Validation runs before any persistence; on a non-empty issues list the
ValidationError is thrown with no side effect.  Then BEGIN, insert the header,
insert each line, COMMIT; any insert failure triggers ROLLBACK, returning the
original state.  The read-back after COMMIT is inside the same catch block, so
a read-back failure (`readBackOk = false`) returns an error while the
committed state stands; the catch-block ROLLBACK is a no-op after COMMIT.
Returns the final database state together with the result. -/
def entryHeader (db : LedgerDB) (now : Nat) (p : EntryPayload) : JournalEntry :=
  { id := db.nextEntryId, entryDate := p.entryDate.getD "",
    description := p.description.getD "",
    referenceNumber := orNull p.referenceNumber,
    createdBy := orNull p.createdBy, createdAt := now, updatedAt := now }

/-- The state right after INSERT INTO journal_entries ... RETURNING id. -/
def dbWithHeader (db : LedgerDB) (now : Nat) (p : EntryPayload) : LedgerDB :=
  { db with
    entries := db.entries ++ [(entryHeader db now p)],
    nextEntryId := db.nextEntryId + 1 }

def createJournalEntry (readBackOk : Bool) (db : LedgerDB) (now : Nat)
    (p : EntryPayload) : LedgerDB × Except AcctError CreatedEntry :=
  let issues := validationIssues p
  if issues = [] then
    let entryId := db.nextEntryId
    match insertLines (dbWithHeader db now p) entryId now (p.lines.getD []) with
    | Except.error e => (db, Except.error e)
    | Except.ok db2 =>
      if readBackOk then
        (db2, Except.ok {
          entry := (db2.entries.find? (fun e => e.id == entryId)).getD
            (entryHeader db now p),
          lines := readBackLines db2 entryId })
      else (db2, Except.error AcctError.readBackFailed)
  else (db, Except.error (AcctError.validation issues))

/-- The ORDER BY of getJournalEntries: "entryDate" DESC, id DESC.
`entryLE e1 e2` means e1 may appear before e2. -/
def entryLE (e1 e2 : JournalEntry) : Prop :=
  e2.entryDate < e1.entryDate ∨ (e2.entryDate = e1.entryDate ∧ e2.id ≤ e1.id)

instance : DecidableRel entryLE := fun e1 e2 =>
  inferInstanceAs (Decidable (e2.entryDate < e1.entryDate ∨
    (e2.entryDate = e1.entryDate ∧ e2.id ≤ e1.id)))

instance : IsTotal JournalEntry entryLE where
  total e1 e2 := by
    unfold entryLE
    rcases lt_trichotomy e1.entryDate e2.entryDate with h | h | h
    · exact Or.inr (Or.inl h)
    · rcases Nat.le_total e1.id e2.id with hid | hid
      · exact Or.inr (Or.inr ⟨h, hid⟩)
      · exact Or.inl (Or.inr ⟨h.symm, hid⟩)
    · exact Or.inl (Or.inl h)

instance : IsTrans JournalEntry entryLE where
  trans e1 e2 e3 h12 h23 := by
    unfold entryLE at *
    rcases h12 with h12 | ⟨h12e, h12i⟩
    · rcases h23 with h23 | ⟨h23e, h23i⟩
      · exact Or.inl (lt_trans h23 h12)
      · exact Or.inl (h23e ▸ h12)
    · rcases h23 with h23 | ⟨h23e, h23i⟩
      · exact Or.inl (h12e ▸ h23)
      · exact Or.inr ⟨h23e.trans h12e, le_trans h23i h12i⟩

/-- getJournalEntries: SELECT headers FROM journal_entries
ORDER BY "entryDate" DESC, id DESC LIMIT $1. -/
def getJournalEntries (db : LedgerDB) (limit : Nat) : List JournalEntry :=
  (db.entries.insertionSort entryLE).take limit

/-- The ORDER BY of getJournalEntryLines: jel.id ASC. -/
def lineIdLE (l1 l2 : JournalEntryLine) : Prop := l1.id ≤ l2.id

instance : DecidableRel lineIdLE := fun l1 l2 =>
  inferInstanceAs (Decidable (l1.id ≤ l2.id))

instance : IsTotal JournalEntryLine lineIdLE where
  total l1 l2 := Nat.le_total l1.id l2.id

instance : IsTrans JournalEntryLine lineIdLE where
  trans _ _ _ h12 h23 := le_trans h12 h23

/-- getJournalEntryLines: lines of one entry, JOINed with chart_of_accounts
for account number and name, ORDER BY jel.id ASC. -/
def getJournalEntryLines (db : LedgerDB) (journalEntryId : Nat) : List EnrichedLine :=
  ((db.lines.filter (fun l => l.journalEntryId == journalEntryId)).insertionSort
      lineIdLE).filterMap fun l =>
    (db.accounts.find? (fun a => a.id == l.accountId)).map fun a =>
      { line := l, accountNumber := a.accountNumber, accountName := a.accountName }

/-- The ORDER BY of getAccountBalances and getChartOfAccounts:
"accountNumber" ASC. -/
def byNumberLE (a b : Account) : Prop := a.accountNumber ≤ b.accountNumber

instance : DecidableRel byNumberLE := fun a b =>
  inferInstanceAs (Decidable (a.accountNumber ≤ b.accountNumber))

instance : IsTotal Account byNumberLE where
  total a b := le_total a.accountNumber b.accountNumber

instance : IsTrans Account byNumberLE where
  trans _ _ _ h12 h23 := le_trans h12 h23

/-- All journal_entry_lines rows of one account (the LEFT JOIN partner rows of
the getAccountBalances query). -/
def accountLines (db : LedgerDB) (accountId : Nat) : List JournalEntryLine :=
  db.lines.filter (fun l => l.accountId == accountId)

/-- One row of the getAccountBalances result, after
`parseFloat(...) || 0` conversion. -/
structure BalanceRow where
  accountNumber : String
  accountName : String
  balance : Rat
  totalDebit : Rat
  totalCredit : Rat
deriving DecidableEq, Repr

/-- The SQL rows of getAccountBalances: one row per active account (GROUP BY
on the primary key), COALESCE(SUM(debit),0), COALESCE(SUM(credit),0) and their
difference, ORDER BY "accountNumber" ASC; each row is tagged with its
category for the grouping step. -/
def balanceRows (db : LedgerDB) : List (Category × BalanceRow) :=
  ((db.accounts.filter (fun a => a.isActive)).insertionSort byNumberLE).map fun a =>
    let ls := accountLines db a.id
    let totalDebit := (ls.map JournalEntryLine.debit).sum
    let totalCredit := (ls.map JournalEntryLine.credit).sum
    (a.category,
      { accountNumber := a.accountNumber, accountName := a.accountName,
        balance := totalDebit - totalCredit,
        totalDebit := totalDebit, totalCredit := totalCredit })

/-- The five-bucket grouping object built by getAccountBalances. -/
structure GroupedBalances where
  assets : List BalanceRow
  liabilities : List BalanceRow
  equity : List BalanceRow
  revenue : List BalanceRow
  expenses : List BalanceRow
deriving DecidableEq, Repr

/-- getAccountBalances: the rows of the aggregate query, pushed in row order
into the bucket named by their category. -/
def getAccountBalances (db : LedgerDB) : GroupedBalances :=
  let rows := balanceRows db
  { assets := (rows.filter (fun r => decide (r.1 = Category.assets))).map Prod.snd,
    liabilities := (rows.filter (fun r => decide (r.1 = Category.liabilities))).map Prod.snd,
    equity := (rows.filter (fun r => decide (r.1 = Category.equity))).map Prod.snd,
    revenue := (rows.filter (fun r => decide (r.1 = Category.revenue))).map Prod.snd,
    expenses := (rows.filter (fun r => decide (r.1 = Category.expenses))).map Prod.snd }

/-- Field accessor for GroupedBalances by category. -/
def bucket (g : GroupedBalances) : Category → List BalanceRow
  | Category.assets => g.assets
  | Category.liabilities => g.liabilities
  | Category.equity => g.equity
  | Category.revenue => g.revenue
  | Category.expenses => g.expenses

/-- Result shape of getAccountingOverview. -/
structure Overview where
  totalAssets : Rat
  totalLiabilities : Rat
  totalEquity : Rat
  totalRevenue : Rat
  totalExpenses : Rat
  netIncome : Rat
deriving DecidableEq, Repr

/-- getAccountingOverview: each category total is
`bucket.reduce((sum, acc) => sum + acc.balance, 0)` over getAccountBalances,
and netIncome = totalRevenue - totalExpenses. -/
def getAccountingOverview (db : LedgerDB) : Overview :=
  let balances := getAccountBalances db
  let totalAssets := balances.assets.foldl (fun sum acc => sum + acc.balance) 0
  let totalLiabilities := balances.liabilities.foldl (fun sum acc => sum + acc.balance) 0
  let totalEquity := balances.equity.foldl (fun sum acc => sum + acc.balance) 0
  let totalRevenue := balances.revenue.foldl (fun sum acc => sum + acc.balance) 0
  let totalExpenses := balances.expenses.foldl (fun sum acc => sum + acc.balance) 0
  { totalAssets := totalAssets, totalLiabilities := totalLiabilities,
    totalEquity := totalEquity, totalRevenue := totalRevenue,
    totalExpenses := totalExpenses,
    netIncome := totalRevenue - totalExpenses }

/-! Concrete fixtures used to exercise the definitions. -/

def acctCash : Account :=
  { id := 1, accountNumber := "1010", accountName := "Cash - Checking",
    category := Category.assets, subcategory := some "Current Assets",
    description := none, isActive := true, createdAt := 0, updatedAt := 0 }

def acctRent : Account :=
  { id := 2, accountNumber := "6100", accountName := "Rent Expense",
    category := Category.expenses, subcategory := some "Operating Expenses",
    description := none, isActive := true, createdAt := 0, updatedAt := 0 }

def dbTwo : LedgerDB :=
  { accounts := [acctCash, acctRent], entries := [], lines := [],
    nextEntryId := 1, nextLineId := 1 }

def lpCredit1500 : LinePayload :=
  { accountId := 1, debit := none, credit := some 1500, description := none }

def lpDebit1500 : LinePayload :=
  { accountId := 2, debit := some 1500, credit := none, description := none }

def pGood : EntryPayload :=
  { entryDate := some "2024-01-01", description := some "Rent",
    referenceNumber := none, createdBy := none,
    lines := some [lpCredit1500, lpDebit1500] }

def lpDebit1000 : LinePayload :=
  { accountId := 1, debit := some 1000, credit := none, description := none }

def lpCredit900 : LinePayload :=
  { accountId := 2, debit := none, credit := some 900, description := none }

def pUnbalanced : EntryPayload :=
  { entryDate := some "2024-01-01", description := some "Rent",
    referenceNumber := none, createdBy := none,
    lines := some [lpDebit1000, lpCredit900] }

def pBadAll : EntryPayload :=
  { entryDate := none, description := none,
    referenceNumber := none, createdBy := none,
    lines := some [lpDebit1000, lpCredit900] }

def lpNegDebit : LinePayload :=
  { accountId := 1, debit := some (-5), credit := none, description := none }

def lpNegCredit : LinePayload :=
  { accountId := 2, debit := none, credit := some (-5), description := none }

/-- A balanced payload (totals -5 and -5) whose line amounts are negative. -/
def pNegative : EntryPayload :=
  { entryDate := some "2024-01-01", description := some "Adjustment",
    referenceNumber := none, createdBy := none,
    lines := some [lpNegDebit, lpNegCredit] }

/-- The first line persisted for pGood. -/
def lineFix : JournalEntryLine :=
  { id := 1, journalEntryId := 1, accountId := 1, debit := 0, credit := 1500,
    description := none, createdAt := 0, updatedAt := 0 }

def entryE1 : JournalEntry :=
  { id := 1, entryDate := "2024-01-05", description := "first",
    referenceNumber := none, createdBy := none, createdAt := 0, updatedAt := 0 }

def entryE2 : JournalEntry :=
  { id := 2, entryDate := "2024-01-05", description := "second",
    referenceNumber := none, createdBy := none, createdAt := 0, updatedAt := 0 }

def entryE3 : JournalEntry :=
  { id := 3, entryDate := "2024-01-07", description := "third",
    referenceNumber := none, createdBy := none, createdAt := 0, updatedAt := 0 }

def dbEntries : LedgerDB :=
  { accounts := [], entries := [entryE1, entryE2, entryE3], lines := [],
    nextEntryId := 4, nextLineId := 1 }

/-! Helper lemmas. -/

theorem foldl_add_eq_sum {α : Type} (f : α → Rat) :
    ∀ (l : List α) (s : Rat), l.foldl (fun acc x => acc + f x) s = s + (l.map f).sum
  | [], s => by simp
  | x :: l, s => by
    simp only [List.foldl_cons, List.map_cons, List.sum_cons]
    rw [foldl_add_eq_sum f l (s + f x)]
    ring

theorem totalDebits_eq_sum (ls : List LinePayload) :
    totalDebits ls = (ls.map (fun l => numOr0 l.debit)).sum := by
  unfold totalDebits
  rw [foldl_add_eq_sum]
  simp

theorem totalCredits_eq_sum (ls : List LinePayload) :
    totalCredits ls = (ls.map (fun l => numOr0 l.credit)).sum := by
  unfold totalCredits
  rw [foldl_add_eq_sum]
  simp

theorem validationIssues_eq_nil_iff (p : EntryPayload) :
    validationIssues p = [] ↔
      (present p.entryDate = true ∧ present p.description = true ∧
        p.lines.getD [] ≠ [] ∧
        |totalDebits (p.lines.getD []) - totalCredits (p.lines.getD [])| ≤ 1 / 100) := by
  unfold validationIssues
  rcases hl : p.lines with _ | ls
  · cases hpe : present p.entryDate <;> cases hpd : present p.description <;> simp
  · cases hpe : present p.entryDate <;> cases hpd : present p.description <;>
      rcases eq_or_ne ls ([] : List LinePayload) with hls | hls <;>
      by_cases hb : |totalDebits ls - totalCredits ls| ≤ 1 / 100 <;>
      simp_all [not_le, not_lt]

theorem insertLine_ok_spec {db db2 : LedgerDB} {entryId now : Nat} {l : LinePayload}
    (h : insertLine db entryId now l = Except.ok db2) :
    db2.accounts = db.accounts ∧ db2.entries = db.entries ∧
      db2.nextEntryId = db.nextEntryId ∧
      db2.lines = db.lines ++ [{
        id := db.nextLineId, journalEntryId := entryId, accountId := l.accountId,
        debit := numOr0 l.debit, credit := numOr0 l.credit,
        description := orNull l.description, createdAt := now, updatedAt := now }] := by
  unfold insertLine at h
  split at h
  · cases h
    exact ⟨rfl, rfl, rfl, rfl⟩
  · cases h

theorem insertLines_ok_spec {entryId now : Nat} :
    ∀ (ls : List LinePayload) (db db2 : LedgerDB),
      insertLines db entryId now ls = Except.ok db2 →
      db2.accounts = db.accounts ∧ db2.entries = db.entries ∧
        db2.nextEntryId = db.nextEntryId ∧
        db2.lines.length = db.lines.length + ls.length ∧
        (∀ x ∈ db2.lines, x ∈ db.lines ∨
          ∃ l ∈ ls, x.debit = numOr0 l.debit ∧ x.credit = numOr0 l.credit)
  | [], db, db2, h => by
    cases h
    exact ⟨rfl, rfl, rfl, rfl, fun x hx => Or.inl hx⟩
  | l :: rest, db, db2, h => by
    unfold insertLines at h
    rcases h1 : insertLine db entryId now l with e | db1
    · rw [h1] at h; cases h
    · rw [h1] at h
      obtain ⟨hacc1, hent1, hnx1, hlines1⟩ := insertLine_ok_spec h1
      obtain ⟨hacc, hent, hnx, hlen, hmem⟩ := insertLines_ok_spec rest db1 db2 h
      refine ⟨hacc.trans hacc1, hent.trans hent1, hnx.trans hnx1, ?_, ?_⟩
      · rw [hlen, hlines1]
        simp [Nat.add_assoc, Nat.add_comm 1]
      · intro x hx
        rcases hmem x hx with hx1 | ⟨l2, hl2, hdc⟩
        · rw [hlines1] at hx1
          rcases List.mem_append.mp hx1 with hx0 | hx0
          · exact Or.inl hx0
          · rcases List.mem_singleton.mp hx0 with rfl
            exact Or.inr ⟨l, List.mem_cons_self l rest, rfl, rfl⟩
        · exact Or.inr ⟨l2, List.mem_cons_of_mem l hl2, hdc⟩

theorem insertLines_total {entryId now : Nat} :
    ∀ (ls : List LinePayload) (db : LedgerDB),
      (∀ l ∈ ls, db.accounts.any (fun a => a.id == l.accountId) = true) →
      ∃ db2, insertLines db entryId now ls = Except.ok db2
  | [], db, _ => ⟨db, rfl⟩
  | l :: rest, db, h => by
    have hl : db.accounts.any (fun a => a.id == l.accountId) = true :=
      h l (List.mem_cons_self l rest)
    rcases h1 : insertLine db entryId now l with e | db1
    · unfold insertLine at h1
      rw [if_pos hl] at h1
      cases h1
    · obtain ⟨hacc1, _, _, _⟩ := insertLine_ok_spec h1
      have hrest : ∀ x ∈ rest, db1.accounts.any (fun a => a.id == x.accountId) = true := by
        intro x hx
        rw [hacc1]
        exact h x (List.mem_cons_of_mem l hx)
      obtain ⟨db2, h2⟩ := insertLines_total rest db1 hrest
      exact ⟨db2, by unfold insertLines; rw [h1]; exact h2⟩

theorem cje_invalid {ro : Bool} {db : LedgerDB} {now : Nat} {p : EntryPayload}
    (hv : validationIssues p ≠ []) :
    createJournalEntry ro db now p =
      (db, Except.error (AcctError.validation (validationIssues p))) := by
  simp only [createJournalEntry]
  rw [if_neg hv]

theorem cje_rollback (ro : Bool) {db : LedgerDB} {now : Nat} {p : EntryPayload}
    {e : AcctError} (hv : validationIssues p = [])
    (hins : insertLines (dbWithHeader db now p) db.nextEntryId now
      (p.lines.getD []) = Except.error e) :
    createJournalEntry ro db now p = (db, Except.error e) := by
  simp only [createJournalEntry]
  rw [if_pos hv, hins]

theorem cje_committed (ro : Bool) {db db2 : LedgerDB} {now : Nat} {p : EntryPayload}
    (hv : validationIssues p = [])
    (hins : insertLines (dbWithHeader db now p) db.nextEntryId now
      (p.lines.getD []) = Except.ok db2) :
    createJournalEntry ro db now p =
      (if ro then
        (db2, Except.ok {
          entry := (db2.entries.find? (fun e => e.id == db.nextEntryId)).getD
            (entryHeader db now p),
          lines := readBackLines db2 db.nextEntryId })
      else (db2, Except.error AcctError.readBackFailed)) := by
  simp only [createJournalEntry]
  rw [if_pos hv, hins]

/-- On a committed transaction the final state is db2 whether or not the
read-back succeeds. -/
theorem cje_committed_state (ro : Bool) {db db2 : LedgerDB} {now : Nat}
    {p : EntryPayload} (hv : validationIssues p = [])
    (hins : insertLines (dbWithHeader db now p) db.nextEntryId now
      (p.lines.getD []) = Except.ok db2) :
    (createJournalEntry ro db now p).1 = db2 := by
  rw [cje_committed ro hv hins]
  cases ro <;> rfl

/-- Claim C1: createJournalEntry is atomic.  A payload failing validation is
rejected with the ValidationError carrying the issues list and the state is
untouched; a line-insert (foreign-key) failure rolls the whole transaction
back to the original state; and in every case the resulting state is either
exactly the original one or has exactly one more entry header and all of the
payload lines appended — never a partial insert. -/
theorem createJournalEntry_atomic (ro : Bool) (db : LedgerDB) (now : Nat)
    (p : EntryPayload) :
    (validationIssues p ≠ [] →
      createJournalEntry ro db now p =
        (db, Except.error (AcctError.validation (validationIssues p)))) ∧
    (∀ aid : Nat,
      (createJournalEntry ro db now p).2 = Except.error (AcctError.fkViolation aid) →
      (createJournalEntry ro db now p).1 = db) ∧
    ((createJournalEntry ro db now p).1 = db ∨
      ((createJournalEntry ro db now p).1.entries.length = db.entries.length + 1 ∧
        (createJournalEntry ro db now p).1.lines.length =
          db.lines.length + (p.lines.getD []).length)) := by
  by_cases hv : validationIssues p = []
  · rcases hins : insertLines (dbWithHeader db now p) db.nextEntryId now
        (p.lines.getD []) with e | db2
    · rw [cje_rollback ro hv hins]
      exact ⟨fun h => absurd hv h, fun aid _ => rfl, Or.inl rfl⟩
    · obtain ⟨hacc, hent, hnx, hlen, _⟩ := insertLines_ok_spec _ _ _ hins
      have hst := cje_committed_state ro hv hins
      refine ⟨fun h => absurd hv h, ?_, ?_⟩
      · intro aid h2
        rw [cje_committed ro hv hins] at h2
        cases ro <;> simp at h2
      · right
        rw [hst]
        exact ⟨by rw [hent]; simp [dbWithHeader],
          by rw [hlen]; simp [dbWithHeader]⟩
  · rw [cje_invalid hv]
    exact ⟨fun _ => rfl, fun aid h => by simp at h, Or.inl rfl⟩

/-- Claim C2: createJournalEntry accepts a payload exactly when entryDate and
description are present, lines is a non-empty array, and the debit and credit
totals differ by at most 0.01; hence every accepted (persisted) entry is
balanced within 0.01. -/
theorem createJournalEntry_accepts_iff (p : EntryPayload) :
    (validationIssues p = [] ↔
      (present p.entryDate = true ∧ present p.description = true ∧
        p.lines.getD [] ≠ [] ∧
        |totalDebits (p.lines.getD []) - totalCredits (p.lines.getD [])| ≤ 1 / 100)) ∧
    (∀ (ro : Bool) (db : LedgerDB) (now : Nat) (db2 : LedgerDB) (res : CreatedEntry),
      createJournalEntry ro db now p = (db2, Except.ok res) →
      |totalDebits (p.lines.getD []) - totalCredits (p.lines.getD [])| ≤ 1 / 100) := by
  refine ⟨validationIssues_eq_nil_iff p, ?_⟩
  intro ro db now db2 res h
  by_cases hv : validationIssues p = []
  · exact ((validationIssues_eq_nil_iff p).mp hv).2.2.2
  · rw [cje_invalid hv] at h
    cases h

/-- Claim C3: the ValidationError reports every violated precondition
together, not only the first: the issues list contains the missing-entryDate
issue exactly when entryDate is absent, the missing-description issue exactly
when description is absent, the empty-lines issue exactly when lines is not a
non-empty array, and the imbalance issue (carrying the two totals interpolated
into the message) exactly when the lines are present and out of balance beyond
0.01; the error raised carries this whole list. -/
theorem validationIssues_reports_all (p : EntryPayload) :
    (Issue.entryDateRequired ∈ validationIssues p ↔ present p.entryDate = false) ∧
    (Issue.descriptionRequired ∈ validationIssues p ↔ present p.description = false) ∧
    (Issue.linesRequired ∈ validationIssues p ↔ p.lines.getD [] = []) ∧
    (∀ d c : Rat, Issue.unbalanced d c ∈ validationIssues p ↔
      (p.lines.getD [] ≠ [] ∧ d = totalDebits (p.lines.getD []) ∧
        c = totalCredits (p.lines.getD []) ∧ |d - c| > 1 / 100)) ∧
    (validationIssues p ≠ [] → ∀ (ro : Bool) (db : LedgerDB) (now : Nat),
      (createJournalEntry ro db now p).2 =
        Except.error (AcctError.validation (validationIssues p))) := by
  refine ⟨?_, ?_, ?_, ?_, ?_⟩
  · unfold validationIssues
    rcases hl : p.lines with _ | ls <;>
      cases hpe : present p.entryDate <;> cases hpd : present p.description <;>
      simp_all
  · unfold validationIssues
    rcases hl : p.lines with _ | ls <;>
      cases hpe : present p.entryDate <;> cases hpd : present p.description <;>
      simp_all
  · unfold validationIssues
    rcases hl : p.lines with _ | ls <;>
      cases hpe : present p.entryDate <;> cases hpd : present p.description <;>
      simp_all
  · intro d c
    unfold validationIssues
    rcases hl : p.lines with _ | ls <;>
      cases hpe : present p.entryDate <;> cases hpd : present p.description <;>
      simp_all
    all_goals
      constructor
      · rintro ⟨⟨h1, h2⟩, rfl, rfl⟩
        exact ⟨h1, rfl, rfl, h2⟩
      · rintro ⟨h1, rfl, rfl, h2⟩
        exact ⟨⟨h1, h2⟩, rfl, rfl⟩
  · intro hv ro db now
    rw [cje_invalid hv]

/-- Claim C9 (amended): every line persisted by createJournalEntry carries the
amounts `Number(line.debit) || 0` and `Number(line.credit) || 0` of some
payload line, so when every payload line amount is non-negative (or absent,
collapsing to 0), every newly persisted line has debit ≥ 0 and credit ≥ 0;
negative payload amounts, however, are persisted unchanged. -/
theorem createJournalEntry_lines_nonneg (ro : Bool) (db : LedgerDB) (now : Nat)
    (p : EntryPayload) (db2 : LedgerDB) (r : Except AcctError CreatedEntry)
    (h : createJournalEntry ro db now p = (db2, r))
    (hnn : ∀ l ∈ p.lines.getD [], 0 ≤ numOr0 l.debit ∧ 0 ≤ numOr0 l.credit) :
    ∀ x ∈ db2.lines, x ∈ db.lines ∨ (0 ≤ x.debit ∧ 0 ≤ x.credit) := by
  by_cases hv : validationIssues p = []
  · rcases hins : insertLines (dbWithHeader db now p) db.nextEntryId now
        (p.lines.getD []) with e | db3
    · rw [cje_rollback ro hv hins] at h
      cases h
      exact fun x hx => Or.inl hx
    · have hst := cje_committed_state ro hv hins
      obtain ⟨_, _, _, _, hmem⟩ := insertLines_ok_spec _ _ _ hins
      have hdb2 : db2 = db3 := by rw [← hst, h]
      subst hdb2
      intro x hx
      rcases hmem x hx with hx0 | ⟨l, hl, hd, hc⟩
      · exact Or.inl hx0
      · right
        rw [hd, hc]
        exact hnn l hl
  · rw [cje_invalid hv] at h
    cases h
    exact fun x hx => Or.inl hx

/-- Claim C10: the post-COMMIT read-back runs inside the same error handler as
the transaction, so with a failing read-back (`readBackOk = false`) a valid,
insertable payload still commits — the returned state has the new header and
all lines — while the caller receives an error: an error result does not imply
that storage is unchanged. -/
theorem createJournalEntry_readback_error_after_commit (db : LedgerDB)
    (now : Nat) (p : EntryPayload) (hv : validationIssues p = [])
    (hacc : ∀ l ∈ p.lines.getD [],
      db.accounts.any (fun a => a.id == l.accountId) = true) :
    ∃ db2, createJournalEntry false db now p =
        (db2, Except.error AcctError.readBackFailed) ∧
      db2.entries.length = db.entries.length + 1 ∧
      db2.lines.length = db.lines.length + (p.lines.getD []).length := by
  have hacc2 : ∀ l ∈ p.lines.getD [],
      (dbWithHeader db now p).accounts.any (fun a => a.id == l.accountId) = true :=
    hacc
  obtain ⟨db2, hins⟩ :=
    @insertLines_total db.nextEntryId now (p.lines.getD []) (dbWithHeader db now p)
      hacc2
  obtain ⟨_, hent, _, hlen, _⟩ := insertLines_ok_spec _ _ _ hins
  refine ⟨db2, ?_, ?_, ?_⟩
  · rw [cje_committed false hv hins]
    simp
  · rw [hent]; simp [dbWithHeader]
  · rw [hlen]; simp [dbWithHeader]

theorem assignIds_length (now : Nat) :
    ∀ (i : Nat) (l : List (String × String × Category × String)),
      (assignIds now i l).length = l.length
  | _, [] => rfl
  | i, (_, _, _, _) :: rest => by
    simp only [assignIds, List.length_cons, assignIds_length now (i + 1) rest]

theorem assignIds_flags (now : Nat) :
    ∀ (i : Nat) (l : List (String × String × Category × String)),
      ((assignIds now i l).all fun a =>
        a.isActive && decide (a.createdAt = now) && decide (a.updatedAt = now)) = true
  | _, [] => rfl
  | i, (_, _, _, _) :: rest => by
    simp only [assignIds, List.all_cons, assignIds_flags now (i + 1) rest]
    simp

theorem assignIds_any_category (now : Nat) (c : Category) :
    ∀ (i : Nat) (l : List (String × String × Category × String)),
      ((assignIds now i l).any fun a => decide (a.category = c)) =
        (l.any fun t => decide (t.2.2.1 = c))
  | _, [] => rfl
  | i, (_, _, _, _) :: rest => by
    simp only [assignIds, List.any_cons, assignIds_any_category now c (i + 1) rest]

theorem seedChartOfAccounts_skip (now : Nat) (accounts : List Account)
    (h : accounts ≠ []) : seedChartOfAccounts now accounts = accounts := by
  unfold seedChartOfAccounts
  rw [if_pos (List.length_pos.mpr h)]

theorem seedChartOfAccounts_empty_len (now : Nat) :
    (seedChartOfAccounts now []).length = 59 := by
  unfold seedChartOfAccounts
  rw [if_neg (by simp)]
  simp [assignIds_length]
  rfl

/-- Claim C4: seeding the chart of accounts is idempotent: a registry that
already holds at least one account is left untouched, and seeding twice from
an empty registry yields the same account count as seeding once. -/
theorem seedChartOfAccounts_idempotent :
    (∀ (now : Nat) (accounts : List Account),
      accounts ≠ [] → seedChartOfAccounts now accounts = accounts) ∧
    (∀ now1 now2 : Nat,
      (seedChartOfAccounts now2 (seedChartOfAccounts now1 [])).length =
        (seedChartOfAccounts now1 []).length) := by
  constructor
  · exact seedChartOfAccounts_skip
  · intro now1 now2
    have hne : seedChartOfAccounts now1 [] ≠ [] := by
      intro h0
      have h1 := seedChartOfAccounts_empty_len now1
      rw [h0] at h1
      simp at h1
    rw [seedChartOfAccounts_skip now2 _ hne]

/-- Claim C5 counterexample: seeding an empty registry does not create 55
accounts (it creates 59). -/
theorem seedChartOfAccounts_count_ne_55 : (seedChartOfAccounts 0 []).length ≠ 55 := by
  decide

/-- Claim C5 (amended): seeding an empty registry creates exactly 59 accounts,
each persisted with active = true and equal creation and update timestamps,
spanning all five categories. -/
theorem seedChartOfAccounts_empty_spec (now : Nat) :
    (seedChartOfAccounts now []).length = 59 ∧
    ((seedChartOfAccounts now []).all fun a =>
      a.isActive && decide (a.createdAt = now) && decide (a.updatedAt = now)) = true ∧
    (∀ c : Category,
      ((seedChartOfAccounts now []).any fun a => decide (a.category = c)) = true) := by
  have hseed : seedChartOfAccounts now [] = assignIds now 1 standardChart := by
    unfold seedChartOfAccounts
    rw [if_neg (by simp)]
    rfl
  refine ⟨?_, ?_, ?_⟩
  · rw [hseed, assignIds_length]
    rfl
  · rw [hseed]
    exact assignIds_flags now 1 standardChart
  · intro c
    rw [hseed, assignIds_any_category]
    cases c <;> decide

theorem bucket_getAccountBalances (db : LedgerDB) (c : Category) :
    bucket (getAccountBalances db) c =
      ((balanceRows db).filter (fun r => decide (r.1 = c))).map Prod.snd := by
  cases c <;> rfl

theorem mem_balanceRows (db : LedgerDB) (x : Category × BalanceRow) :
    x ∈ balanceRows db ↔
      ∃ a ∈ db.accounts, a.isActive = true ∧
        x = (a.category,
          { accountNumber := a.accountNumber, accountName := a.accountName,
            balance := ((accountLines db a.id).map JournalEntryLine.debit).sum -
              ((accountLines db a.id).map JournalEntryLine.credit).sum,
            totalDebit := ((accountLines db a.id).map JournalEntryLine.debit).sum,
            totalCredit := ((accountLines db a.id).map JournalEntryLine.credit).sum }) := by
  unfold balanceRows
  simp only [List.mem_map, List.mem_insertionSort, List.mem_filter]
  constructor
  · rintro ⟨a, ⟨ha, hact⟩, rfl⟩
    exact ⟨a, ha, hact, rfl⟩
  · rintro ⟨a, ha, hact, rfl⟩
    exact ⟨a, ⟨ha, hact⟩, rfl⟩

/-- Claim C6: getAccountBalances reports, for every active account and no
inactive one, totalDebit and totalCredit as the sums of debit and credit over
the lines of that account and balance as their difference; the rows are grouped
into the five category buckets, each ordered by account number ascending, and
an active account with no lines appears with zero totals instead of being
omitted. -/
theorem getAccountBalances_spec (db : LedgerDB) (c : Category) :
    (∀ r ∈ bucket (getAccountBalances db) c,
      ∃ a ∈ db.accounts, a.isActive = true ∧ a.category = c ∧
        r.accountNumber = a.accountNumber ∧ r.accountName = a.accountName ∧
        r.totalDebit = ((accountLines db a.id).map JournalEntryLine.debit).sum ∧
        r.totalCredit = ((accountLines db a.id).map JournalEntryLine.credit).sum ∧
        r.balance = r.totalDebit - r.totalCredit) ∧
    (∀ a ∈ db.accounts, a.isActive = true → a.category = c →
      ∃ r ∈ bucket (getAccountBalances db) c,
        r.accountNumber = a.accountNumber ∧ r.accountName = a.accountName ∧
        r.totalDebit = ((accountLines db a.id).map JournalEntryLine.debit).sum ∧
        r.totalCredit = ((accountLines db a.id).map JournalEntryLine.credit).sum ∧
        r.balance = r.totalDebit - r.totalCredit) ∧
    (∀ a ∈ db.accounts, a.isActive = true → a.category = c →
      accountLines db a.id = [] →
      ∃ r ∈ bucket (getAccountBalances db) c,
        r.accountNumber = a.accountNumber ∧
        r.totalDebit = 0 ∧ r.totalCredit = 0 ∧ r.balance = 0) ∧
    (bucket (getAccountBalances db) c).Pairwise
      (fun r1 r2 => r1.accountNumber ≤ r2.accountNumber) := by
  have key : ∀ a ∈ db.accounts, a.isActive = true → a.category = c →
      ∃ r ∈ bucket (getAccountBalances db) c,
        r.accountNumber = a.accountNumber ∧ r.accountName = a.accountName ∧
        r.totalDebit = ((accountLines db a.id).map JournalEntryLine.debit).sum ∧
        r.totalCredit = ((accountLines db a.id).map JournalEntryLine.credit).sum ∧
        r.balance = r.totalDebit - r.totalCredit := by
    intro a ha hact hcat
    rw [bucket_getAccountBalances]
    refine ⟨{
      accountNumber := a.accountNumber,
      accountName := a.accountName,
      balance := ((accountLines db a.id).map JournalEntryLine.debit).sum -
        ((accountLines db a.id).map JournalEntryLine.credit).sum,
      totalDebit := ((accountLines db a.id).map JournalEntryLine.debit).sum,
      totalCredit := ((accountLines db a.id).map JournalEntryLine.credit).sum },
      ?_, rfl, rfl, rfl, rfl, rfl⟩
    apply List.mem_map.mpr
    refine ⟨(a.category, _), ?_, rfl⟩
    apply List.mem_filter.mpr
    refine ⟨(mem_balanceRows db _).mpr ⟨a, ha, hact, rfl⟩, ?_⟩
    rw [hcat]
    exact decide_eq_true rfl
  refine ⟨?_, key, ?_, ?_⟩
  · intro r hr
    rw [bucket_getAccountBalances] at hr
    obtain ⟨x, hx, rfl⟩ := List.mem_map.mp hr
    obtain ⟨hxmem, hxc⟩ := List.mem_filter.mp hx
    have hc : x.1 = c := of_decide_eq_true hxc
    obtain ⟨a, ha, hact, rfl⟩ := (mem_balanceRows db x).mp hxmem
    exact ⟨a, ha, hact, hc, rfl, rfl, rfl, rfl, rfl⟩
  · intro a ha hact hcat h0
    obtain ⟨r, hr, hnum, _, hd, hcr, hb⟩ := key a ha hact hcat
    rw [h0] at hd hcr
    simp only [List.map_nil, List.sum_nil] at hd hcr
    exact ⟨r, hr, hnum, hd, hcr, by rw [hb, hd, hcr]; norm_num⟩
  · have hs : List.Sorted byNumberLE
        ((db.accounts.filter fun a => a.isActive).insertionSort byNumberLE) :=
      List.sorted_insertionSort _ _
    have h1 : (balanceRows db).Pairwise
        (fun x y => x.2.accountNumber ≤ y.2.accountNumber) := by
      unfold balanceRows
      exact List.pairwise_map.mpr (hs.imp (fun h => h))
    have h2 := h1.filter (fun r => decide (r.1 = c))
    rw [bucket_getAccountBalances]
    exact List.pairwise_map.mpr (h2.imp (fun h => h))

/-- Claim C7: every category total of the overview is the sum of the balances
of the bucket of that category as reported by getAccountBalances, and netIncome is
exactly totalRevenue minus totalExpenses. -/
theorem getAccountingOverview_spec (db : LedgerDB) :
    (getAccountingOverview db).totalAssets =
      ((getAccountBalances db).assets.map BalanceRow.balance).sum ∧
    (getAccountingOverview db).totalLiabilities =
      ((getAccountBalances db).liabilities.map BalanceRow.balance).sum ∧
    (getAccountingOverview db).totalEquity =
      ((getAccountBalances db).equity.map BalanceRow.balance).sum ∧
    (getAccountingOverview db).totalRevenue =
      ((getAccountBalances db).revenue.map BalanceRow.balance).sum ∧
    (getAccountingOverview db).totalExpenses =
      ((getAccountBalances db).expenses.map BalanceRow.balance).sum ∧
    (getAccountingOverview db).netIncome =
      (getAccountingOverview db).totalRevenue -
        (getAccountingOverview db).totalExpenses := by
  refine ⟨?_, ?_, ?_, ?_, ?_, ?_⟩
  all_goals simp only [getAccountingOverview]
  all_goals first
    | rfl
    | (rw [foldl_add_eq_sum]; simp)

/-- Claim C8: getJournalEntries returns at most `limit` entry headers, ordered
by entry date descending with the surrogate id descending as tie-break
(relation entryLE), and every returned entry sorts at or before every entry
left out, so the most recent entries come first. -/
theorem getJournalEntries_spec (db : LedgerDB) (limit : Nat) :
    (getJournalEntries db limit).length ≤ limit ∧
    (getJournalEntries db limit).Pairwise entryLE ∧
    (∀ e ∈ getJournalEntries db limit, ∀ e2 ∈ db.entries,
      e2 ∉ getJournalEntries db limit → entryLE e e2) := by
  have hsort : List.Sorted entryLE (db.entries.insertionSort entryLE) :=
    List.sorted_insertionSort entryLE db.entries
  refine ⟨?_, ?_, ?_⟩
  · simp only [getJournalEntries]
    exact List.length_take_le limit _
  · simp only [getJournalEntries]
    exact List.Pairwise.sublist (List.take_sublist limit _) hsort
  · intro e he e2 he2 hne
    simp only [getJournalEntries] at he hne
    have he2s : e2 ∈ db.entries.insertionSort entryLE := by
      rw [List.mem_insertionSort]
      exact he2
    rw [← List.take_append_drop limit (db.entries.insertionSort entryLE)] at he2s
    rcases List.mem_append.mp he2s with h | h
    · exact absurd h hne
    · exact hsort.rel_of_mem_take_of_mem_drop he h

/-- Claim C9 counterexample: a balanced payload with negative line amounts is
accepted, and the stored lines violate debit ≥ 0 and credit ≥ 0. -/
theorem createJournalEntry_lines_can_be_negative :
    ¬ ∀ x ∈ (createJournalEntry true dbTwo 0 pNegative).1.lines,
      0 ≤ x.debit ∧ 0 ≤ x.credit := by
  decide

/-- Witness for C1 at a concrete unbalanced payload. -/
theorem createJournalEntry_atomic_witness :
    createJournalEntry true dbTwo 0 pUnbalanced =
      (dbTwo, Except.error (AcctError.validation (validationIssues pUnbalanced))) :=
  (createJournalEntry_atomic true dbTwo 0 pUnbalanced).1 (by decide)

/-- Witness for C2 at a concrete balanced payload. -/
theorem createJournalEntry_accepts_iff_witness :
    validationIssues pGood = [] :=
  (createJournalEntry_accepts_iff pGood).1.mpr (by decide)

/-- Witness for C3: a payload missing entryDate and description with
unbalanced lines has the imbalance issue (with both totals) in its report. -/
theorem validationIssues_reports_all_witness :
    Issue.unbalanced 1000 900 ∈ validationIssues pBadAll :=
  ((validationIssues_reports_all pBadAll).2.2.2.1 1000 900).mpr (by decide)

/-- Witness for C4 at a concrete non-empty registry. -/
theorem seedChartOfAccounts_idempotent_witness :
    seedChartOfAccounts 0 dbTwo.accounts = dbTwo.accounts :=
  seedChartOfAccounts_idempotent.1 0 dbTwo.accounts (by decide)

/-- Witness for C6: the active asset account of dbTwo yields a row, so the
assets bucket is non-empty. -/
theorem getAccountBalances_spec_witness :
    bucket (getAccountBalances dbTwo) Category.assets ≠ [] := by
  obtain ⟨r, hr, _⟩ :=
    (getAccountBalances_spec dbTwo Category.assets).2.1 acctCash (by decide) rfl rfl
  intro h0
  rw [h0] at hr
  cases hr

/-- Witness for C8: with three concrete entries and limit 2, the excluded
oldest entry sorts after a returned one. -/
theorem getJournalEntries_spec_witness : entryLE entryE2 entryE1 :=
  (getJournalEntries_spec dbEntries 2).2.2 entryE2
    (by simp [getJournalEntries, List.insertionSort, List.orderedInsert, entryLE,
      dbEntries, entryE1, entryE2, entryE3] <;> decide)
    entryE1 (by decide)
    (by simp [getJournalEntries, List.insertionSort, List.orderedInsert, entryLE,
      dbEntries, entryE1, entryE2, entryE3] <;> decide)

/-- Witness for the amended C9 at a concrete non-negative payload. -/
theorem createJournalEntry_lines_nonneg_witness :
    lineFix ∈ dbTwo.lines ∨ (0 ≤ lineFix.debit ∧ 0 ≤ lineFix.credit) :=
  createJournalEntry_lines_nonneg true dbTwo 0 pGood
    (createJournalEntry true dbTwo 0 pGood).1
    (createJournalEntry true dbTwo 0 pGood).2
    rfl (by decide) lineFix (by decide)

/-- Witness for C10 at a concrete valid payload: the error result still left
a committed entry behind. -/
theorem createJournalEntry_readback_error_witness :
    (createJournalEntry false dbTwo 0 pGood).1.entries.length =
      dbTwo.entries.length + 1 := by
  obtain ⟨db2, heq, hent, _⟩ :=
    createJournalEntry_readback_error_after_commit dbTwo 0 pGood (by decide)
      (by decide)
  rw [heq]
  exact hent

end Backendtest
